import Mathlib

/-!
Verification of the PulseAI web application (src/app.py) against its
specification. The development shallowly embeds the prediction pipeline
(`predict`), the registration handler (`register`), the chat endpoint
(`chat`) and the lazy model initializer (`get_ai_model`) as pure Lean
functions. Python exceptions are modelled as `Except` values, the two
pickled inference artifacts as optional functions, and the hosted AI
provider as an explicit world record of outcomes. Machine floating-point
values parsed from form fields are modelled as exact decimal pairs
(significand, base-10 exponent) tagged with the non-finite cases
(`inf`, `-inf`, `nan`); the parsed magnitudes only flow into opaque
artifact functions, so binary64 rounding and decimal-overflow-to-infinity
are immaterial to every property proved here and are not modelled.
-/

/-- Result of Python `float(s)`: a finite value, kept exact as the
parsed decimal `significand * 10 ^ exponent` (first argument the signed
significand, second the base-10 exponent), or one of the non-finite
values that `float` also accepts. -/
inductive PyFloat where
  | finite : Int → Int → PyFloat
  | inf : PyFloat
  | neginf : PyFloat
  | nan : PyFloat
deriving DecidableEq, Repr

/-- Consume a leading run of decimal digits, allowing a single
underscore between two digits as Python number literals do. Returns the
accumulated value, the number of digits consumed, and the rest. -/
def takeDigitsU : List Char → Nat × Nat × List Char
  | [] => (0, 0, [])
  | [c] => if c.isDigit then (c.toNat - '0'.toNat, 1, []) else (0, 0, [c])
  | c :: c2 :: rest =>
    if c.isDigit then
      if c2 = '_' then
        match rest with
        | d :: rest2 =>
          if d.isDigit then
            let (v, n, r) := takeDigitsU (d :: rest2)
            ((c.toNat - '0'.toNat) * 10 ^ n + v, n + 1, r)
          else (c.toNat - '0'.toNat, 1, c2 :: d :: rest2)
        | [] => (c.toNat - '0'.toNat, 1, [c2])
      else
        let (v, n, r) := takeDigitsU (c2 :: rest)
        ((c.toNat - '0'.toNat) * 10 ^ n + v, n + 1, r)
    else (0, 0, c :: c2 :: rest)

/-- Parse an unsigned decimal float body (already lowercased, sign
stripped): `digits [. digits] [e [sign] digits]`, requiring at least one
mantissa digit and no trailing characters, as Python `float` does. -/
def parseDecimal (cs : List Char) : Option (Nat × Int) :=
  let (v1, n1, r1) := takeDigitsU cs
  let (v2, n2, r2) :=
    match r1 with
    | '.' :: r => takeDigitsU r
    | _ => (0, 0, r1)
  if n1 + n2 = 0 then none
  else
    let significand := v1 * 10 ^ n2 + v2
    match r2 with
    | [] => some (significand, -(n2 : Int))
    | 'e' :: r3 =>
      let (eneg, r4) :=
        match r3 with
        | '+' :: r => (false, r)
        | '-' :: r => (true, r)
        | r => (false, r)
      let (ev, en, r5) := takeDigitsU r4
      if en = 0 ∨ r5 ≠ [] then none
      else some (significand, (if eneg then -(ev : Int) else (ev : Int)) - (n2 : Int))
    | _ => none

/-- ASCII whitespace stripped by Python `float` (further Unicode
whitespace is stripped too; it never occurs in the inputs treated
here). -/
def pyWhitespace (c : Char) : Bool :=
  c = ' ' ∨ c = '\t' ∨ c = '\n' ∨ c = '\r' ∨ c = '\x0b' ∨ c = '\x0c'

/-- Strip leading and trailing whitespace from a character list. -/
def trimChars (cs : List Char) : List Char :=
  ((cs.dropWhile pyWhitespace).reverse.dropWhile pyWhitespace).reverse

/-- Lowercase an ASCII letter (Python float parsing is
case-insensitive). -/
def lowerChar (c : Char) : Char :=
  if 'A' ≤ c ∧ c ≤ 'Z' then Char.ofNat (c.toNat + 32) else c

/-- Python `float(s)`: strip surrounding whitespace, case-insensitively
accept `inf`/`infinity`/`nan` with an optional sign, otherwise parse a
signed decimal literal. `none` models `float` raising `ValueError`. -/
def pyFloat? (s : String) : Option PyFloat :=
  let cs := (trimChars s.data).map lowerChar
  let (neg, body) :=
    match cs with
    | '+' :: r => (false, r)
    | '-' :: r => (true, r)
    | r => (false, r)
  if body = "inf".data ∨ body = "infinity".data then
    some (if neg then PyFloat.neginf else PyFloat.inf)
  else if body = "nan".data then some PyFloat.nan
  else
    match parseDecimal body with
    | some (s, e) =>
      some (PyFloat.finite (if neg then -(s : Int) else (s : Int)) e)
    | none => none

/-- `[float(x) for x in request.form.values()]`: parse each submitted
value in order; the first failure raises `ValueError`, modelled as the
error case carrying the message text of Python `float`. -/
def parseFloats : List String → Except String (List PyFloat)
  | [] => .ok []
  | x :: xs =>
    match pyFloat? x with
    | none => .error ("could not convert string to float: \x27" ++ x ++ "\x27")
    | some v =>
      match parseFloats xs with
      | .error e => .error e
      | .ok vs => .ok (v :: vs)

/-- The two module-level artifacts `lr` (classifier) and `sc` (scaler),
each `None` when unpickling failed at startup. A loaded scaler maps the
single-row feature vector to its standardized row; a loaded classifier
maps the standardized row to the single label `prediction[0]`. The
`Except` error case models the call raising, with `str(e)` carried. -/
structure Models where
  lr : Option (List PyFloat → Except String Int)
  sc : Option (List PyFloat → Except String (List PyFloat))

/-- What `render_template('predictor.html', ...)` plus the flashed
messages amounts to for one request: the `(message, category)` flashes
raised during the request, the `prediction_text` argument, and the
`prediction_class` argument (absent in every error render). -/
structure Response where
  flashes : List (String × String)
  prediction_text : String
  prediction_class : Option String
deriving DecidableEq, Repr

/-- The `/predict` POST handler. `formValues` is `request.form.values()`
in submission order. `np.asarray(...).reshape(1, -1)` repackages the
parsed values as the one row handed to the scaler and is modelled as
passing the ordered list through unchanged. -/
def predict (m : Models) (formValues : List String) : Response :=
  match m.lr, m.sc with
  | some lrF, some scF =>
    (match parseFloats formValues with
     | .error e => ⟨[("Error: " ++ e, "danger")], "", none⟩
     | .ok input_data =>
       if input_data.length ≠ 13 then
         ⟨[("Error: Expected 13 features, got " ++
             toString input_data.length ++ ".", "danger")], "", none⟩
       else
         match scF input_data with
         | .error e => ⟨[("Error: " ++ e, "danger")], "", none⟩
         | .ok std_data =>
           match lrF std_data with
           | .error e => ⟨[("Error: " ++ e, "danger")], "", none⟩
           | .ok label =>
             if label = 1 then
               ⟨[], "Patient Diagnosed With Heart Disease", some "text-red-600"⟩
             else
               ⟨[], "CONGRATULATIONS! Patient Not Diagnosed With Heart Disease",
                 some "text-green-600"⟩)
  | _, _ => ⟨[("Models not loaded.", "danger")], "", none⟩

/-- The render produced by the label-1 branch of `predict`. -/
def positiveResponse : Response :=
  ⟨[], "Patient Diagnosed With Heart Disease", some "text-red-600"⟩

/-- The render produced by the other-label branch of `predict`. -/
def negativeResponse : Response :=
  ⟨[], "CONGRATULATIONS! Patient Not Diagnosed With Heart Disease",
    some "text-green-600"⟩

/-- The render produced when an artifact is missing. -/
def modelsNotLoadedResponse : Response :=
  ⟨[("Models not loaded.", "danger")], "", none⟩

/-- Does `pat` occur starting at the head of `s`? Helper for the Python
`in` substring test. -/
def matchesHere : List Char → List Char → Bool
  | [], _ => true
  | _ :: _, [] => false
  | a :: as, b :: bs => a == b && matchesHere as bs

/-- Python `pat in s` on strings: substring containment. -/
def pyIn (pat s : String) : Bool :=
  (List.range (s.data.length + 1)).any fun i => matchesHere pat.data (s.data.drop i)

/-- Python truthiness of an optional string: `None` and the empty
string are falsy. -/
def truthy : Option String → Bool
  | none => false
  | some s => !s.data.isEmpty

/-- The fixed ordered preference list used by `get_ai_model`. -/
def priority_substrings : List String :=
  ["gemini-1.5-flash", "gemini-1.5-pro", "gemini-1.0-pro", "gemini-pro"]

/-- `priority in model_name and 'exp' not in model_name`. -/
def prioMatch (priority model_name : String) : Bool :=
  pyIn priority model_name && !pyIn "exp" model_name

/-- `'exp' not in model_name and 'vision' not in model_name`, the first
fallback filter of `get_ai_model`. -/
def fallbackOk (model_name : String) : Bool :=
  !pyIn "exp" model_name && !pyIn "vision" model_name

/-- The nested priority loops of `get_ai_model`, with the running
`chosen_model_name` passed explicitly: in each outer iteration the
inner loop assigns the first listed name matching the current priority
(leaving `chosen_model_name` untouched when none does) and then
`if chosen_model_name: break` leaves the outer loop as soon as the
chosen name is truthy. -/
def priorityLoop (available_models : List String) :
    Option String → List String → Option String
  | chosen, [] => chosen
  | chosen, priority :: ps =>
    let chosen' :=
      match available_models.find? (prioMatch priority) with
      | some name => some name
      | none => chosen
    if truthy chosen' then chosen'
    else priorityLoop available_models chosen' ps

/-- The model-name selection of `get_ai_model`, given the provider list
of content-generation-capable model names: the priority loops; then,
when `chosen_model_name` is still falsy (`if not chosen_model_name:`),
the first non-`exp`/non-`vision` listed name; then, when it is still
falsy — unset or the empty string — the hardcoded default. -/
def selectModelName (available_models : List String) : String :=
  let chosen0 := priorityLoop available_models none priority_substrings
  let chosen1 :=
    if truthy chosen0 then chosen0
    else
      match available_models.find? fallbackOk with
      | some name => some name
      | none => chosen0
  match chosen1 with
  | some name =>
    if truthy (some name) then name else "models/gemini-1.5-flash"
  | none => "models/gemini-1.5-flash"

/-- An exception raised by the provider call, as seen by the `except`
block: the HTTP status it arose from and its `str(e)` text. -/
structure GenError where
  status : Nat
  msg : String
deriving DecidableEq, Repr

/-- A `genai.GenerativeModel` handle: the chosen model name and its
`generate_content` behaviour (the generation-config dict rides along in
the handle and has no bearing on the properties here). -/
structure ChatModel where
  modelName : String
  genContent : String → Except GenError String

/-- The provider-side outcomes one process run can observe:
whether `genai.configure` succeeds, which content-generation-capable
model names the `list_models` loop accumulates (an exception inside
that loop is caught by the inner `except` and only truncates the list),
and what constructing `GenerativeModel` for a given name yields. -/
structure GeminiWorld where
  configureOk : Bool
  listedModels : List String
  mkModel : String → Except String ChatModel

/-- `get_ai_model()`, with the module global `_model` passed and
returned explicitly: `m0` is `_model` on entry, the second component is
`_model` after the call, the first the returned value. -/
def get_ai_model (w : GeminiWorld) (apiKey : Option String)
    (m0 : Option ChatModel) : Option ChatModel × Option ChatModel :=
  match m0 with
  | some m => (some m, some m)
  | none =>
    if truthy apiKey = false then (none, none)
    else if w.configureOk = false then (none, none)
    else
      let available_models := w.listedModels
      let chosen_model_name := selectModelName available_models
      match w.mkModel chosen_model_name with
      | .ok m => (some m, some m)
      | .error _ => (none, none)

/-- The fixed offline notice of the `/chat` route. -/
def offline_notice : String :=
  "AI System is currently offline (API Key missing)."

/-- The notice returned when `get_ai_model()` yields no handle. -/
def init_failed_notice : String :=
  "AI Model initialization failed. Check server logs for details."

/-- The generic transport-failure fallback of the `/chat` route,
embedding `str(e)`. -/
def genericFallback (errDetail : String) : String :=
  "I\x27m having trouble thinking right now. Error details: " ++ errDetail

/-- The fixed system-instruction wrapper put around the user message. -/
def prompt_with_context (user_message : String) : String :=
  "\n    You are PulseAI Assistant, a specialized medical AI focused ONLY on heart health.\n    If the user asks about heart health, diet, or medical terms, answer helpfully.\n    If the user asks about ANYTHING else, politely REFUSE.\n    \n    User Query: " ++ user_message ++ "\n    "

/-- The `/chat` POST handler for one authenticated request: the string
is the `response` field of the returned JSON, the option the module
global `_model` after the request. -/
def chat (w : GeminiWorld) (apiKey : Option String) (m0 : Option ChatModel)
    (message : String) : String × Option ChatModel :=
  if truthy apiKey = false then (offline_notice, m0)
  else
    match get_ai_model w apiKey m0 with
    | (none, m1) => (init_failed_notice, m1)
    | (some model, m1) =>
      match model.genContent (prompt_with_context message) with
      | .ok t => (t, m1)
      | .error e => (genericFallback e.msg, m1)

/-- One row of the identity table: unique username plus password hash. -/
structure UserRec where
  username : String
  password_hash : String
deriving DecidableEq, Repr

/-- What the `/register` POST branch renders: the flashed messages and
whether the request redirected to the login page (as opposed to
re-rendering the registration form). -/
structure RegisterResponse where
  flashes : List (String × String)
  redirectedToLogin : Bool
deriving DecidableEq, Repr

/-- The `/register` POST handler for an unauthenticated session, with
the identity table passed and returned explicitly; `hashFn` stands for
`generate_password_hash`. `User.query.filter_by(username=...).first()`
is the first-match lookup, `db.session.add` plus `commit` the append. -/
def register (hashFn : String → String) (store : List UserRec)
    (username password : String) : RegisterResponse × List UserRec :=
  match store.find? (fun u => u.username == username) with
  | some _ => (⟨[("Username exists.", "warning")], false⟩, store)
  | none =>
    (⟨[("Registration successful!", "success")], true⟩,
      store ++ [⟨username, hashFn password⟩])

/-- Usernames are pairwise distinct in the identity store (the unique
constraint on the `username` column). -/
def UniqueUsernames (store : List UserRec) : Prop :=
  store.Pairwise (fun a b => a.username ≠ b.username)

/-- `a` is the first element of `l` satisfying the Boolean predicate
`p`: `l` splits around `a`, `a` satisfies `p`, and every earlier
element fails `p`. -/
def IsFirstSuch (p : String → Bool) (l : List String) (a : String) : Prop :=
  ∃ l₁ l₂, l = l₁ ++ a :: l₂ ∧ p a = true ∧ ∀ b ∈ l₁, p b = false

/-- A concrete scaler stand-in returning its input row unchanged. -/
def idScaler : List PyFloat → Except String (List PyFloat) := fun l => .ok l

/-- A concrete classifier stand-in always yielding label 1. -/
def onePredictor : List PyFloat → Except String Int := fun _ => .ok 1

/-- A concrete classifier stand-in always yielding label 0. -/
def zeroPredictor : List PyFloat → Except String Int := fun _ => .ok 0

/-- Thirteen form values whose first entry parses to a non-finite
float: Python `float("inf")` succeeds and returns infinity. -/
def infForm : List String :=
  ["inf", "0", "0", "0", "0", "0", "0", "0", "0", "0", "0", "0", "0"]

/-- The 13-feature example vector of the specification. -/
def form13 : List String :=
  ["63", "1", "3", "145", "233", "1", "0", "150", "0", "2.3", "0", "0", "1"]

/-- The parsed value of `form13`. -/
def vals13 : List PyFloat :=
  [.finite 63 0, .finite 1 0, .finite 3 0, .finite 145 0, .finite 233 0,
   .finite 1 0, .finite 0 0, .finite 150 0, .finite 0 0, .finite 23 (-1),
   .finite 0 0, .finite 0 0, .finite 1 0]

/-- A cached chat handle whose provider call raises from an HTTP 401
authentication failure. -/
def auth401Model : ChatModel :=
  ⟨"models/gemini-1.5-flash",
   fun _ => .error ⟨401, "401 API key not valid. Please pass a valid API key."⟩⟩

/-- A handle raising with the same exception text from a non-401
transport failure, to compare responses. -/
def transport500Model : ChatModel :=
  ⟨"models/gemini-1.5-flash",
   fun _ => .error ⟨500, "401 API key not valid. Please pass a valid API key."⟩⟩

/-- A benign concrete provider world. -/
def chatWorld : GeminiWorld :=
  ⟨true, [], fun n => .ok ⟨n, fun _ => .ok "reply"⟩⟩

/-- A provider world whose `GenerativeModel` construction raises. -/
def failWorld : GeminiWorld := ⟨true, [], fun _ => .error "boom"⟩

/-- A concrete working chat handle. -/
def okModel : ChatModel := ⟨"models/gemini-1.5-flash", fun _ => .ok "reply"⟩

theorem find?_eq_some_iff_isFirstSuch (p : String → Bool) (l : List String)
    (a : String) : l.find? p = some a ↔ IsFirstSuch p l a := by
  induction l with
  | nil => simp [IsFirstSuch]
  | cons x xs ih =>
    by_cases hx : p x = true
    · rw [List.find?_cons_of_pos _ hx]
      constructor
      · rintro h
        obtain rfl : x = a := by simpa using h
        exact ⟨[], xs, rfl, hx, by simp⟩
      · rintro ⟨l₁, l₂, heq, hpa, hfail⟩
        cases l₁ with
        | nil =>
          obtain ⟨rfl, -⟩ : x = a ∧ xs = l₂ := by simpa using heq
          rfl
        | cons y l₁ =>
          obtain ⟨rfl, -⟩ : x = y ∧ xs = l₁ ++ a :: l₂ := by simpa using heq
          exact absurd hx (by simp [hfail x (by simp)])
    · rw [List.find?_cons_of_neg _ hx, ih]
      constructor
      · rintro ⟨l₁, l₂, heq, hpa, hfail⟩
        refine ⟨x :: l₁, l₂, by simp [heq], hpa, ?_⟩
        intro b hb
        rcases List.mem_cons.mp hb with rfl | hb'
        · simpa using hx
        · exact hfail b hb'
      · rintro ⟨l₁, l₂, heq, hpa, hfail⟩
        cases l₁ with
        | nil =>
          obtain ⟨rfl, -⟩ : x = a ∧ xs = l₂ := by simpa using heq
          exact absurd hpa hx
        | cons y l₁ =>
          obtain ⟨rfl, htl⟩ : x = y ∧ xs = l₁ ++ a :: l₂ := by simpa using heq
          exact ⟨l₁, l₂, htl, hpa, fun b hb => hfail b (by simp [hb])⟩

theorem findSome?_find?_cases (avail : List String)
    (pm : String → String → Bool) (ps : List String) :
    (∃ p a, ps.findSome? (fun q => avail.find? (pm q)) = some a ∧
            IsFirstSuch (fun q => avail.any (pm q)) ps p ∧
            IsFirstSuch (pm p) avail a)
    ∨ (ps.findSome? (fun q => avail.find? (pm q)) = none ∧
       ∀ q ∈ ps, ∀ n ∈ avail, pm q n = false) := by
  induction ps with
  | nil => right; simp
  | cons q ps ih =>
    cases hf : avail.find? (pm q) with
    | some a =>
      left
      refine ⟨q, a, ?_, ?_, (find?_eq_some_iff_isFirstSuch _ _ _).mp hf⟩
      · simp [List.findSome?_cons, hf]
      · refine ⟨[], ps, rfl, ?_, by simp⟩
        exact List.any_eq_true.mpr
          ⟨a, List.mem_of_find?_eq_some hf, List.find?_some hf⟩
    | none =>
      have hall : ∀ n ∈ avail, pm q n = false := by
        intro n hn
        simpa using List.find?_eq_none.mp hf n hn
      rcases ih with ⟨p, a, h1, h2, h3⟩ | ⟨h1, h2⟩
      · left
        refine ⟨p, a, ?_, ?_, h3⟩
        · simp [List.findSome?_cons, hf, h1]
        · rcases h2 with ⟨l₁, l₂, heq, hpa, hfail⟩
          refine ⟨q :: l₁, l₂, by simp [heq], hpa, ?_⟩
          intro b hb
          rcases List.mem_cons.mp hb with rfl | hb'
          · exact List.any_eq_false.mpr (by simpa using hall)
          · exact hfail b hb'
      · right
        refine ⟨by simp [List.findSome?_cons, hf, h1], ?_⟩
        intro q' hq' n hn
        rcases List.mem_cons.mp hq' with rfl | hq''
        · exact hall n hn
        · exact h2 q' hq'' n hn

/-- Claim C4: with a missing scaler or classifier artifact, `predict`
returns the `ModelsUnavailable` notice render, deterministically and
independently of the submitted form input. -/
theorem predict_models_unavailable (m : Models) (form form' : List String)
    (h : m.lr = none ∨ m.sc = none) :
    predict m form = modelsNotLoadedResponse ∧
    predict m form = predict m form' := by
  have hshape : ∀ f : List String, predict m f = modelsNotLoadedResponse := by
    intro f
    rcases h with h | h
    · simp [predict, h, modelsNotLoadedResponse]
    · cases hl : m.lr with
      | none => simp [predict, hl, modelsNotLoadedResponse]
      | some lrF => simp [predict, hl, h, modelsNotLoadedResponse]
  exact ⟨hshape form, (hshape form).trans (hshape form').symm⟩

theorem predict_models_unavailable_witness :
    predict ⟨none, none⟩ ["63"] = modelsNotLoadedResponse ∧
    predict ⟨none, none⟩ ["63"] = predict ⟨none, none⟩ [] :=
  predict_models_unavailable ⟨none, none⟩ ["63"] [] (Or.inl rfl)

/-- Claim C5: when every form value parses but the count is not 13,
`predict` flashes the `FeatureCountMismatch` notice carrying the
expected count 13 and the actual count, with the empty result state;
the conclusion holds for every pair of artifact functions, so neither
the scaler nor the classifier is invoked. -/
theorem predict_feature_count_mismatch
    (lrF lrF' : List PyFloat → Except String Int)
    (scF scF' : List PyFloat → Except String (List PyFloat))
    (form : List String) (vals : List PyFloat)
    (hp : parseFloats form = .ok vals) (hn : vals.length ≠ 13) :
    predict ⟨some lrF, some scF⟩ form =
      ⟨[("Error: Expected 13 features, got " ++ toString vals.length ++ ".",
         "danger")], "", none⟩ ∧
    predict ⟨some lrF, some scF⟩ form = predict ⟨some lrF', some scF'⟩ form := by
  constructor <;> simp [predict, hp, hn]

theorem predict_feature_count_mismatch_witness :
    predict ⟨some onePredictor, some idScaler⟩
        ["0", "0", "0", "0", "0", "0", "0", "0", "0", "0", "0", "0"] =
      ⟨[("Error: Expected 13 features, got 12.", "danger")], "", none⟩ :=
  (predict_feature_count_mismatch onePredictor zeroPredictor idScaler idScaler
      ["0", "0", "0", "0", "0", "0", "0", "0", "0", "0", "0", "0"]
      (List.replicate 12 (PyFloat.finite 0 0)) (by rfl) (by decide)).1

theorem parseFloats_error_of_bad (form : List String)
    (h : ∃ x ∈ form, pyFloat? x = none) :
    ∃ bad, pyFloat? bad = none ∧
      parseFloats form =
        .error ("could not convert string to float: \x27" ++ bad ++ "\x27") := by
  induction form with
  | nil => simp at h
  | cons x xs ih =>
    rcases h with ⟨y, hy, hpy⟩
    by_cases hx : pyFloat? x = none
    · exact ⟨x, hx, by simp [parseFloats, hx]⟩
    · rcases List.mem_cons.mp hy with rfl | hmem
      · exact absurd hpy hx
      · rcases Option.ne_none_iff_exists'.mp hx with ⟨v, hv⟩
        rcases ih ⟨y, hmem, hpy⟩ with ⟨bad, hb1, hb2⟩
        exact ⟨bad, hb1, by simp [parseFloats, hv, hb2]⟩

/-- Claim C6 (amended): when some form value fails to parse as a float
at all (Python `float` raises `ValueError`), `predict` flashes the
`InvalidInput` notice naming an offending token, with the empty result
state; the conclusion holds for every pair of artifact functions, so
neither the scaler nor the classifier is invoked. Values parsing to
non-finite floats are accepted and proceed (see the counterexample). -/
theorem predict_invalid_input
    (lrF lrF' : List PyFloat → Except String Int)
    (scF scF' : List PyFloat → Except String (List PyFloat))
    (form : List String)
    (h : ∃ x ∈ form, pyFloat? x = none) :
    (∃ bad, pyFloat? bad = none ∧
       predict ⟨some lrF, some scF⟩ form =
         ⟨[("Error: " ++
             ("could not convert string to float: \x27" ++ bad ++ "\x27"),
            "danger")], "", none⟩) ∧
    predict ⟨some lrF, some scF⟩ form = predict ⟨some lrF', some scF'⟩ form := by
  rcases parseFloats_error_of_bad form h with ⟨bad, hb1, hb2⟩
  exact ⟨⟨bad, hb1, by simp [predict, hb2]⟩, by simp [predict, hb2]⟩

theorem predict_invalid_input_witness :
    ∃ bad, pyFloat? bad = none ∧
      predict ⟨some onePredictor, some idScaler⟩ ["63", "abc"] =
        ⟨[("Error: " ++
            ("could not convert string to float: \x27" ++ bad ++ "\x27"),
           "danger")], "", none⟩ :=
  (predict_invalid_input onePredictor zeroPredictor idScaler idScaler
      ["63", "abc"] ⟨"abc", by decide, by decide⟩).1

/-- Claim C6, counterexample to the claim as stated: the token `inf`
does not parse as a finite floating-point number (it parses to
infinity), yet `predict` raises no `InvalidInput` notice on `infForm`:
the run reaches the classifier, whose label decides the output. -/
theorem predict_invalid_input_counterexample :
    pyFloat? "inf" = some PyFloat.inf ∧
    predict ⟨some onePredictor, some idScaler⟩ infForm = positiveResponse ∧
    predict ⟨some zeroPredictor, some idScaler⟩ infForm = negativeResponse :=
  ⟨by decide, by decide, by decide⟩

/-- Claim C1 (amended): a well-formed run reaching classification maps
label 1 to the positive render (message "Patient Diagnosed With Heart
Disease", red tag) and any other label to the negative render, whose
message is "CONGRATULATIONS! Patient Not Diagnosed With Heart Disease";
the result is always exactly one of the two renders, never both and
never neither. -/
theorem predict_classification
    (lrF : List PyFloat → Except String Int)
    (scF : List PyFloat → Except String (List PyFloat))
    (form : List String) (vals std_data : List PyFloat) (label : Int)
    (hp : parseFloats form = .ok vals) (hn : vals.length = 13)
    (hs : scF vals = .ok std_data) (hl : lrF std_data = .ok label) :
    (predict ⟨some lrF, some scF⟩ form = positiveResponse ∨
     predict ⟨some lrF, some scF⟩ form = negativeResponse) ∧
    (predict ⟨some lrF, some scF⟩ form = positiveResponse ↔ label = 1) ∧
    positiveResponse ≠ negativeResponse := by
  have hpred : predict ⟨some lrF, some scF⟩ form =
      if label = 1 then positiveResponse else negativeResponse := by
    simp [predict, hp, hn, hs, hl, positiveResponse, negativeResponse]
  by_cases h1 : label = 1
  · rw [hpred, if_pos h1]
    exact ⟨Or.inl rfl, by simp [h1], by decide⟩
  · rw [hpred, if_neg h1]
    refine ⟨Or.inr rfl, ?_, by decide⟩
    simp only [iff_false, h1]
    exact fun hcontra => absurd hcontra (by decide)

theorem predict_classification_witness :
    predict ⟨some onePredictor, some idScaler⟩ form13 = positiveResponse :=
  (predict_classification onePredictor idScaler form13 vals13 vals13 1
      (by rfl) (by decide) (by rfl) (by rfl)).2.1.mpr rfl

/-- Claim C1, counterexample to the claim as stated: on the well-formed
example vector with a label-0 classifier, the run reaches the negative
outcome without any flash, but its message is not the claimed "Patient
Not Diagnosed With Heart Disease" string: the code prepends
"CONGRATULATIONS! ". -/
theorem predict_negative_message_counterexample :
    (predict ⟨some zeroPredictor, some idScaler⟩ form13).flashes = [] ∧
    (predict ⟨some zeroPredictor, some idScaler⟩ form13).prediction_text =
      "CONGRATULATIONS! Patient Not Diagnosed With Heart Disease" ∧
    (predict ⟨some zeroPredictor, some idScaler⟩ form13).prediction_text ≠
      "Patient Not Diagnosed With Heart Disease" :=
  ⟨by decide, by decide, by decide⟩

/-- Claim C3: every run of the `/predict` handler completes with a
well-defined render: either one of the two diagnosis renders with no
flashed notice, or a single flashed danger-category notice with the
empty `prediction_text`; no failure escapes the handler. -/
theorem predict_failure_boundary (m : Models) (form : List String) :
    (predict m form = positiveResponse ∨ predict m form = negativeResponse) ∨
    ((predict m form).prediction_text = "" ∧
     (predict m form).flashes.length = 1 ∧
     ∀ f ∈ (predict m form).flashes, f.2 = "danger") := by
  unfold predict
  split
  · split
    · right; simp
    · split
      · right; simp
      · split
        · right; simp
        · split
          · right; simp
          · split
            · left; left; simp [positiveResponse]
            · left; right; simp [negativeResponse]
  · right; simp

theorem truthy_of_pyIn (p n : String) (hp : p.data ≠ [])
    (h : pyIn p n = true) : truthy (some n) = true := by
  cases hd : n.data with
  | cons c cs => simp [truthy, hd]
  | nil =>
    exfalso
    simp only [pyIn, hd] at h
    rcases List.any_eq_true.mp h with ⟨i, hi, hm⟩
    rcases hq : p.data with _ | ⟨a, as⟩
    · exact hp hq
    · rw [List.drop_nil, hq] at hm
      simp [matchesHere] at hm

theorem truthy_of_prioMatch (p n : String) (hp : p.data ≠ [])
    (h : prioMatch p n = true) : truthy (some n) = true := by
  refine truthy_of_pyIn p n hp ?_
  simp only [prioMatch, Bool.and_eq_true] at h
  exact h.1

theorem priorityLoop_eq_findSome? (avail : List String) (ps : List String)
    (hps : ∀ p ∈ ps, p.data ≠ []) :
    priorityLoop avail none ps =
      ps.findSome? (fun p => avail.find? (prioMatch p)) := by
  induction ps with
  | nil => rfl
  | cons p ps ih =>
    cases hf : avail.find? (prioMatch p) with
    | some name =>
      have ht : truthy (some name) = true :=
        truthy_of_prioMatch p name (hps p (by simp)) (List.find?_some hf)
      simp [priorityLoop, hf, ht, List.findSome?_cons]
    | none =>
      have hstep : priorityLoop avail none (p :: ps) =
          priorityLoop avail none ps := by
        simp [priorityLoop, hf, truthy]
      rw [hstep, ih (fun q hq => hps q (by simp [hq])),
        List.findSome?_cons, hf]

/-- Claim C7 (amended): given the provider list of
content-generation-capable model names, the selection returns, for the
highest-priority substring that matches at all, the first listed name
containing it that is not experimental-tagged; failing that, the first
listed name that is neither experimental-tagged nor vision-tagged,
provided that name is non-empty — an empty first fallback name, like
no fallback name at all, yields the hardcoded default identifier. -/
theorem get_ai_model_selection (available : List String) :
    (∃ p, IsFirstSuch (fun q => available.any (prioMatch q))
            priority_substrings p ∧
          IsFirstSuch (prioMatch p) available (selectModelName available))
    ∨ ((∀ q ∈ priority_substrings, ∀ n ∈ available, prioMatch q n = false) ∧
       ((∃ name, IsFirstSuch fallbackOk available name ∧ name ≠ "" ∧
           selectModelName available = name)
        ∨ (IsFirstSuch fallbackOk available "" ∧
           selectModelName available = "models/gemini-1.5-flash")
        ∨ ((∀ n ∈ available, fallbackOk n = false) ∧
           selectModelName available = "models/gemini-1.5-flash"))) := by
  have hps : ∀ p ∈ priority_substrings, p.data ≠ [] := by decide
  have hloop := priorityLoop_eq_findSome? available priority_substrings hps
  rcases findSome?_find?_cases available prioMatch priority_substrings with
    ⟨p, a, h1, h2, h3⟩ | ⟨h1, h2⟩
  · left
    refine ⟨p, h2, ?_⟩
    have hpmem : p ∈ priority_substrings := by
      rcases h2 with ⟨l₁, l₂, heq, -, -⟩
      rw [heq]; simp
    have hpa : prioMatch p a = true := by
      rcases h3 with ⟨l₁, l₂, -, hpa, -⟩
      exact hpa
    have hta : truthy (some a) = true :=
      truthy_of_prioMatch p a (hps p hpmem) hpa
    have hsel : selectModelName available = a := by
      rw [selectModelName, hloop, h1]
      simp [hta]
    rwa [hsel]
  · right
    refine ⟨h2, ?_⟩
    have hchosen0 : priorityLoop available none priority_substrings = none := by
      rw [hloop, h1]
    cases hf : available.find? fallbackOk with
    | some name =>
      by_cases hne : truthy (some name) = true
      · left
        refine ⟨name, (find?_eq_some_iff_isFirstSuch _ _ _).mp hf, ?_, ?_⟩
        · intro hcontra
          rw [hcontra] at hne
          simp [truthy] at hne
        · have hne' : name.data.isEmpty = false := by
            simpa [truthy] using hne
          rw [selectModelName, hchosen0]
          simp [truthy, hf, hne']
      · right; left
        have hemp : name = "" := by
          cases name with
          | mk data =>
            cases data with
            | nil => rfl
            | cons c cs => simp [truthy] at hne
        subst hemp
        refine ⟨(find?_eq_some_iff_isFirstSuch _ _ _).mp hf, ?_⟩
        rw [selectModelName, hchosen0]
        simp [truthy, hf]
    | none =>
      right; right
      refine ⟨?_, ?_⟩
      · intro n hn
        simpa using List.find?_eq_none.mp hf n hn
      · rw [selectModelName, hchosen0]
        simp [truthy, hf]

/-- Claim C7, counterexample to the claim as stated: on the provider
list whose only entry is the empty string, no priority substring
matches and the first (and only) non-experimental, non-vision listed
name is that empty string, yet the selection does not return it: the
truthiness re-check discards it for the hardcoded default. -/
theorem selectModelName_empty_counterexample :
    (∀ q ∈ priority_substrings, ∀ n ∈ [""], prioMatch q n = false) ∧
    List.find? fallbackOk [""] = some "" ∧
    selectModelName [""] = "models/gemini-1.5-flash" ∧
    "models/gemini-1.5-flash" ≠ "" :=
  ⟨by decide, by decide, by decide, by decide⟩

/-- Claim C8: with no configured provider credential (absent or empty),
the chat endpoint returns the fixed offline notice, leaves the cached
handle untouched, and the conclusion holds for every provider world, so
no network call or client initialization is attempted. -/
theorem chat_offline (w : GeminiWorld) (apiKey : Option String)
    (m0 : Option ChatModel) (message : String)
    (h : truthy apiKey = false) :
    chat w apiKey m0 message = (offline_notice, m0) := by
  simp [chat, h]

theorem chat_offline_witness :
    chat failWorld none none "" = (offline_notice, none) :=
  chat_offline failWorld none none "" rfl

/-- Claim C2 (amended): any provider failure, an HTTP 401
authentication failure included, makes the chat endpoint return the
generic transport-failure fallback embedding `str(e)`; the response
depends only on the exception text, never on the status, so no
distinguishing invalid-credential message exists. -/
theorem chat_failure_generic (w w' : GeminiWorld) (k : String)
    (hk : truthy (some k) = true)
    (m m' : ChatModel) (message : String) (e e' : GenError)
    (hgen : m.genContent (prompt_with_context message) = .error e)
    (hgen' : m'.genContent (prompt_with_context message) = .error e')
    (hmsg : e.msg = e'.msg) :
    (chat w (some k) (some m) message).1 = genericFallback e.msg ∧
    (chat w (some k) (some m) message).1 =
      (chat w' (some k) (some m') message).1 := by
  constructor <;> simp [chat, hk, get_ai_model, hgen, hgen', hmsg]

theorem chat_failure_generic_witness :
    (chat chatWorld (some "key") (some auth401Model) "hi").1 =
      genericFallback "401 API key not valid. Please pass a valid API key." ∧
    (chat chatWorld (some "key") (some auth401Model) "hi").1 =
      (chat chatWorld (some "key") (some transport500Model) "hi").1 :=
  chat_failure_generic chatWorld chatWorld "key" (by decide)
    auth401Model transport500Model "hi"
    ⟨401, "401 API key not valid. Please pass a valid API key."⟩
    ⟨500, "401 API key not valid. Please pass a valid API key."⟩
    rfl rfl rfl

/-- Claim C2, counterexample to the claim as stated: when the provider
fails the request with HTTP 401, the endpoint answers with exactly the
generic transport-failure fallback — indistinguishable from the answer
to a non-authentication failure with the same text, and containing no
invalid-credential wording of its own. -/
theorem chat_auth_counterexample :
    (chat chatWorld (some "key") (some auth401Model) "hi").1 =
      genericFallback "401 API key not valid. Please pass a valid API key." ∧
    pyIn "invalid credential"
      (chat chatWorld (some "key") (some auth401Model) "hi").1 = false ∧
    (chat chatWorld (some "key") (some auth401Model) "hi").1 =
      (chat chatWorld (some "key") (some transport500Model) "hi").1 :=
  ⟨by decide, by decide, by decide⟩

/-- Claim C9: registering an existing username flashes the
duplicate-identity notice and leaves the identity store unchanged, and
every `register` call preserves the uniqueness of usernames. -/
theorem register_duplicate_and_unique (hashFn : String → String)
    (store : List UserRec) (username password : String)
    (hu : UniqueUsernames store) :
    ((∃ r ∈ store, r.username = username) →
       (register hashFn store username password).1 =
         ⟨[("Username exists.", "warning")], false⟩ ∧
       (register hashFn store username password).2 = store) ∧
    UniqueUsernames (register hashFn store username password).2 := by
  cases hf : store.find? (fun u => u.username == username) with
  | some u =>
    refine ⟨fun _ => ⟨?_, ?_⟩, ?_⟩
    · simp [register, hf]
    · simp [register, hf]
    · simpa [register, hf] using hu
  | none =>
    have hfresh : ∀ r ∈ store, r.username ≠ username := by
      intro r hr
      simpa using List.find?_eq_none.mp hf r hr
    refine ⟨fun hex => ?_, ?_⟩
    · rcases hex with ⟨r, hr, hru⟩
      exact absurd hru (hfresh r hr)
    · have : (register hashFn store username password).2 =
          store ++ [⟨username, hashFn password⟩] := by simp [register, hf]
      rw [this, UniqueUsernames, List.pairwise_append]
      refine ⟨hu, by simp, ?_⟩
      intro a ha b hb
      obtain rfl : b = ⟨username, hashFn password⟩ := by simpa using hb
      exact hfresh a ha

theorem register_duplicate_and_unique_witness :
    (register (fun p => p) [⟨"alice", "h"⟩] "alice" "pw").1 =
      ⟨[("Username exists.", "warning")], false⟩ ∧
    (register (fun p => p) [⟨"alice", "h"⟩] "alice" "pw").2 =
      [⟨"alice", "h"⟩] :=
  (register_duplicate_and_unique (fun p => p) [⟨"alice", "h"⟩] "alice" "pw"
      (by simp [UniqueUsernames])).1 ⟨⟨"alice", "h"⟩, by simp, rfl⟩

theorem get_ai_model_none_state (w : GeminiWorld) (k : Option String) :
    get_ai_model w k none = (none, none) ∨
    ∃ m, get_ai_model w k none = (some m, some m) := by
  unfold get_ai_model
  by_cases h1 : truthy k = false
  · simp [h1]
  · by_cases h2 : w.configureOk = false
    · simp [h1, h2]
    · cases hm : w.mkModel (selectModelName w.listedModels) with
      | ok m => right; exact ⟨m, by simp [h1, h2, hm]⟩
      | error e => left; simp [h1, h2, hm]

/-- Claim C10: a failed initialization leaves the module-level handle
unset (so the next call re-runs configuration and selection, which the
state-passing `get_ai_model` then performs by definition), only a
successful initialization stores a handle, and a cached handle is
returned unchanged by every later call, for every provider world and
credential. -/
theorem get_ai_model_cache_discipline :
    (∀ w k, (get_ai_model w k none).1 = none →
       (get_ai_model w k none).2 = none) ∧
    (∀ w k m, (get_ai_model w k none).1 = some m →
       (get_ai_model w k none).2 = some m) ∧
    (∀ w k m, get_ai_model w k (some m) = (some m, some m)) := by
  refine ⟨fun w k h => ?_, fun w k m h => ?_, fun w k m => rfl⟩
  · rcases get_ai_model_none_state w k with h0 | ⟨m, h0⟩
    · simp [h0]
    · rw [h0] at h; simp at h
  · rcases get_ai_model_none_state w k with h0 | ⟨m', h0⟩
    · rw [h0] at h; simp at h
    · rw [h0] at h ⊢
      simpa using h

theorem get_ai_model_cache_discipline_witness :
    (get_ai_model failWorld (some "k") none).2 = none ∧
    get_ai_model failWorld (some "k") (some okModel) =
      (some okModel, some okModel) :=
  ⟨get_ai_model_cache_discipline.1 failWorld (some "k") rfl,
   get_ai_model_cache_discipline.2.2 failWorld (some "k") okModel⟩
